import Mathlib

/-!
Verification of the spectral-metrics computation engine of the LED plant-light
analysis program (`led_plant_analysis.py`), shallowly embedded over `ℚ`.

The engine's numeric values are IEEE floats in the source; here they are
modelled as exact rationals.  Non-finite values (NaN / ±Inf), which in the
source survive `pd.to_numeric`/`dropna` and are only removed by the
`valid_mask` filter on the integration series, are modelled explicitly by the
extended-value type `EVal` (`none` in an `Option EVal` cell plays the role of
NaN, which `dropna` removes).
-/

namespace LED

/-- Extended numeric value: a finite rational, or one of the two IEEE
infinities.  NaN is represented one level up as `Option.none`. -/
inductive EVal where
  | fin : ℚ → EVal
  | pinf : EVal
  | ninf : EVal
deriving DecidableEq

/-- IEEE-style multiplication on extended values; `none` is NaN
(in particular `0 * ±Inf = NaN`). -/
def emul : EVal → EVal → Option EVal
  | .fin a, .fin b => some (.fin (a * b))
  | .fin a, .pinf => if 0 < a then some .pinf else if a < 0 then some .ninf else none
  | .fin a, .ninf => if 0 < a then some .ninf else if a < 0 then some .pinf else none
  | .pinf, .fin b => if 0 < b then some .pinf else if b < 0 then some .ninf else none
  | .ninf, .fin b => if 0 < b then some .ninf else if b < 0 then some .pinf else none
  | .pinf, .pinf => some .pinf
  | .pinf, .ninf => some .ninf
  | .ninf, .pinf => some .ninf
  | .ninf, .ninf => some .pinf

/-- Division of an extended value by a positive finite constant
(`±Inf / c = ±Inf`). -/
def edivPos : EVal → ℚ → EVal
  | .fin a, c => .fin (a / c)
  | .pinf, _ => .pinf
  | .ninf, _ => .ninf

/-- The photon-energy conversion constant 119.8 of the source
(`integration = wavelength * radiation / 119.8`). -/
def photonConst : ℚ := 119.8

/-- The per-sample integration value computed on extended values, as the
source computes `(wavelength * radiation) / 119.8` on float columns;
`none` is NaN. -/
def integrationEVal (w r : EVal) : Option EVal :=
  (emul w r).map (fun v => edivPos v photonConst)

/-- A raw uploaded table as the core sees it: the column count of the
dataframe, and per row the first two cells after `pd.to_numeric(·,
errors='coerce')` — `none` marks a null or non-numeric cell (NaN).
Columns beyond the first two are ignored by the engine. -/
structure RawTable where
  numCols : ℕ
  rows : List (Option EVal × Option EVal)

/-- The three tagged fatal failures of the analysis pipeline. -/
inductive AnalysisError where
  | insufficientColumns : AnalysisError
  | emptyAfterCleaning : AnalysisError
  | noValidSamples : AnalysisError
deriving DecidableEq

/-- How the analysis can abort: one of the three tagged fatal failures
(reported with an error message and a `(None, None)` return), or the
uncaught `IndexError` raised at the first band computation when the boolean
masks — built from the unfiltered cleaned table — are applied to the
shorter post-`valid_mask` arrays.  That exception escapes
`calculate_light_analysis` and is only swallowed by the caller's generic
upload handler, so it is an abort without a tagged failure. -/
inductive PipelineAbort where
  | tagged : AnalysisError → PipelineAbort
  | indexError : PipelineAbort
deriving DecidableEq

/-- A cleaned, filtered spectrum sample: finite wavelength (nm) and finite
radiation. -/
structure Sample where
  wavelength : ℚ
  radiation : ℚ
deriving DecidableEq

/-- The integration value `wavelength * radiation / 119.8` of a cleaned,
filtered sample. -/
def integrationValue (s : Sample) : ℚ :=
  s.wavelength * s.radiation / photonConst

/-- `dropna` of the source: keep only rows where both coerced cells are
non-NaN. -/
def cleanRows (rows : List (Option EVal × Option EVal)) : List (EVal × EVal) :=
  rows.filterMap fun p =>
    match p with
    | (some w, some r) => some (w, r)
    | _ => none

/-- The `valid_mask` filter of the source: keep a cleaned row exactly when
its integration value is finite (not NaN, not ±Inf); the surviving
wavelength/radiation values are then necessarily finite. -/
def keepSample (p : EVal × EVal) : Option Sample :=
  match integrationEVal p.1 p.2, p with
  | some (.fin _), (.fin w, .fin r) => some ⟨w, r⟩
  | _, _ => none

/-- The validation/cleaning/filtering front half of
`calculate_light_analysis`: column-count check, numeric coercion and
row-wise NaN dropping, integration-validity filtering.  Returns the
cleaned, filtered spectrum, the first tagged fatal failure, or the
`indexError` abort: when the `valid_mask` filter drops some but not all
cleaned rows, the band helpers' boolean masks (length of the cleaned
table, e.g. `df_clean['wavelength'] >= min_wave`) no longer match the
filtered arrays they index, and NumPy raises an uncaught `IndexError` at
the first band sum (`par_integration`), before any result is built. -/
def calculate_light_analysis_pipeline (t : RawTable) :
    Except PipelineAbort (List Sample) :=
  if t.numCols < 2 then .error (.tagged .insufficientColumns)
  else
    let cleaned := cleanRows t.rows
    if cleaned = [] then .error (.tagged .emptyAfterCleaning)
    else
      let filtered := cleaned.filterMap keepSample
      if filtered = [] then .error (.tagged .noValidSamples)
      else if filtered.length < cleaned.length then .error .indexError
      else .ok filtered

/-! ### Band Integrator -/

/-- The half-open wavelength-band membership mask of the source helpers
(`min_wave <= wavelength < max_wave`, `include_upper=False` default). -/
def inBand (lo hi : ℚ) (s : Sample) : Bool :=
  decide (lo ≤ s.wavelength) && decide (s.wavelength < hi)

/-- `calculate_wavelength_range_integration` of the source: sum of the
integration values over the samples whose wavelength lies in `[lo, hi)`. -/
def calculate_wavelength_range_integration (samples : List Sample) (lo hi : ℚ) : ℚ :=
  ((samples.filter (inBand lo hi)).map integrationValue).sum

/-- `calculate_wavelength_range_radiation` of the source: sum of the raw
radiation values over the samples whose wavelength lies in `[lo, hi)`. -/
def calculate_wavelength_range_radiation (samples : List Sample) (lo hi : ℚ) : ℚ :=
  ((samples.filter (inBand lo hi)).map Sample.radiation).sum

/-- PAR integration: raw radiation summed over [400, 700). -/
def par_integration (samples : List Sample) : ℚ :=
  calculate_wavelength_range_radiation samples 400 700

/-- Blue band: integration values summed over [400, 500). -/
def blue_integration (samples : List Sample) : ℚ :=
  calculate_wavelength_range_integration samples 400 500

/-- Green band: integration values summed over [500, 600). -/
def green_integration (samples : List Sample) : ℚ :=
  calculate_wavelength_range_integration samples 500 600

/-- Red band: integration values summed over [600, 700). -/
def red_integration (samples : List Sample) : ℚ :=
  calculate_wavelength_range_integration samples 600 700

/-- Far-red band: integration values summed over [700, 800). -/
def far_red_integration (samples : List Sample) : ℚ :=
  calculate_wavelength_range_integration samples 700 800

/-- UV-A band: integration values summed over [315, 400). -/
def uva_integration (samples : List Sample) : ℚ :=
  calculate_wavelength_range_integration samples 315 400

/-- UV-B band: integration values summed over [280, 315). -/
def uvb_integration (samples : List Sample) : ℚ :=
  calculate_wavelength_range_integration samples 280 315

/-- Violet band: integration values summed over [380, 420) (deliberately
overlaps UV-A and Blue). -/
def violet_integration (samples : List Sample) : ℚ :=
  calculate_wavelength_range_integration samples 380 420

/-- NIR band: integration values summed over [700, 850) (deliberately
overlaps Far-red). -/
def nir_integration (samples : List Sample) : ℚ :=
  calculate_wavelength_range_integration samples 700 850

/-- `light_quality_total = blue + green + red + far_red`. -/
def light_quality_total (samples : List Sample) : ℚ :=
  blue_integration samples + green_integration samples + red_integration samples +
    far_red_integration samples

/-- `extended_light_quality = uva + violet + blue + green + red + far_red + nir`. -/
def extended_light_quality (samples : List Sample) : ℚ :=
  uva_integration samples + violet_integration samples + blue_integration samples +
    green_integration samples + red_integration samples + far_red_integration samples +
    nir_integration samples

/-- `photosynthetic_active = np.sum(integration_values)`. -/
def photosynthetic_active (samples : List Sample) : ℚ :=
  (samples.map integrationValue).sum

/-- `total_integration = np.sum(radiation)`. -/
def total_integration (samples : List Sample) : ℚ :=
  (samples.map Sample.radiation).sum

/-! ### Metric Calculator -/

/-- `blue_percentage`, guarded: 0 when the extended total is not positive. -/
def blue_percentage (samples : List Sample) : ℚ :=
  if extended_light_quality samples > 0 then
    blue_integration samples / extended_light_quality samples * 100
  else 0

/-- `green_percentage`. -/
def green_percentage (samples : List Sample) : ℚ :=
  if extended_light_quality samples > 0 then
    green_integration samples / extended_light_quality samples * 100
  else 0

/-- `red_percentage`. -/
def red_percentage (samples : List Sample) : ℚ :=
  if extended_light_quality samples > 0 then
    red_integration samples / extended_light_quality samples * 100
  else 0

/-- `far_red_percentage`. -/
def far_red_percentage (samples : List Sample) : ℚ :=
  if extended_light_quality samples > 0 then
    far_red_integration samples / extended_light_quality samples * 100
  else 0

/-- `light_energy_ratio = photosynthetic_active / total_integration`, 0 on a
zero denominator. -/
def light_energy_ratio (samples : List Sample) : ℚ :=
  if total_integration samples > 0 then
    photosynthetic_active samples / total_integration samples
  else 0

/-- `total_photon_flux = total_radiation_flux * light_energy_ratio`. -/
def total_photon_flux (total_radiation_flux : ℚ) (samples : List Sample) : ℚ :=
  total_radiation_flux * light_energy_ratio samples

/-- `ppe = total_photon_flux / total_power if total_power > 0 else 0`. -/
def ppe (total_radiation_flux total_power : ℚ) (samples : List Sample) : ℚ :=
  if total_power > 0 then total_photon_flux total_radiation_flux samples / total_power
  else 0

/-- `par_ratio = par_integration / total_integration`, 0 on a zero
denominator. -/
def par_ratio (samples : List Sample) : ℚ :=
  if total_integration samples > 0 then par_integration samples / total_integration samples
  else 0

/-- `par_power = total_radiation_flux * par_ratio`. -/
def par_power (total_radiation_flux : ℚ) (samples : List Sample) : ℚ :=
  total_radiation_flux * par_ratio samples

/-- `light_energy_efficiency = par_power / total_power if total_power > 0
else 0`. -/
def light_energy_efficiency (total_radiation_flux total_power : ℚ)
    (samples : List Sample) : ℚ :=
  if total_power > 0 then par_power total_radiation_flux samples / total_power
  else 0

/-- `r_b_ratio = red_integration / blue_integration`, 0 on a zero
denominator. -/
def r_b_ratio (samples : List Sample) : ℚ :=
  if blue_integration samples > 0 then red_integration samples / blue_integration samples
  else 0

/-! ### Overall quality rating (`evaluate_light_quality`) -/

/-- `evaluate_light_quality` of the source: three sub-scores summed, mapped
to a (rating, icon) pair.  `"优秀"` is the Excellent tier, `"良好"` Good,
`"一般"` Fair. -/
def evaluate_light_quality (ppe_val par_ratio_val rb_ratio : ℚ) : String × String :=
  let ppe_score : ℕ := if ppe_val > 2.5 then 3 else if ppe_val > 2.0 then 2 else 1
  let par_score : ℕ := if par_ratio_val > 0.8 then 3 else if par_ratio_val > 0.6 then 2 else 1
  let rb_score : ℕ :=
    if 0.5 ≤ rb_ratio ∧ rb_ratio ≤ 3.0 then 3
    else if 0.3 ≤ rb_ratio ∧ rb_ratio ≤ 4.0 then 2
    else 1
  let total_score := ppe_score + par_score + rb_score
  if total_score ≥ 8 then ("优秀", "🏆")
  else if total_score ≥ 6 then ("良好", "👍")
  else ("一般", "📈")

/-- Spec-side PPE sub-score: 3 if > 2.5, 2 if > 2.0, else 1. -/
def ppeSubScore (p : ℚ) : ℕ := if p > 2.5 then 3 else if p > 2.0 then 2 else 1

/-- Spec-side PAR-ratio sub-score: 3 if > 0.8, 2 if > 0.6, else 1. -/
def parSubScore (p : ℚ) : ℕ := if p > 0.8 then 3 else if p > 0.6 then 2 else 1

/-- Spec-side R/B-ratio sub-score: 3 if in [0.5, 3.0], 2 if in [0.3, 4.0],
else 1. -/
def rbSubScore (rb : ℚ) : ℕ :=
  if 0.5 ≤ rb ∧ rb ≤ 3.0 then 3 else if 0.3 ≤ rb ∧ rb ≤ 4.0 then 2 else 1

/-- Spec-side rating tier from the summed sub-scores: Excellent (`"优秀"`)
if ≥ 8, Good (`"良好"`) if ≥ 6, else Fair (`"一般"`). -/
def ratingOfSum (n : ℕ) : String :=
  if n ≥ 8 then "优秀" else if n ≥ 6 then "良好" else "一般"

/-! ### Scoring Engine: crop suitability -/

/-- Leafy-vegetables (叶菜类) crop score of the source: sequential point
accumulation from base 0, clamped at 100. -/
def leafy_score (rb blue_pct green_pct par : ℚ) : ℕ :=
  let s : ℕ := 0
  let s := s + (if 0.5 ≤ rb ∧ rb ≤ 1.5 then 30 else if 0.3 ≤ rb ∧ rb ≤ 2.0 then 20 else 10)
  let s := s + (if blue_pct > 20 then 25 else if blue_pct > 15 then 15 else 5)
  let s := s + (if green_pct < 15 then 20 else 10)
  let s := s + (if par > 0.8 then 25 else if par > 0.6 then 15 else 5)
  min s 100

/-- Fruiting-vegetables (果菜类) crop score of the source. -/
def fruit_score (rb red_pct far_red_pct par : ℚ) : ℕ :=
  let s : ℕ := 0
  let s := s + (if 1.0 ≤ rb ∧ rb ≤ 3.0 then 30 else if 0.7 ≤ rb ∧ rb ≤ 4.0 then 20 else 10)
  let s := s + (if red_pct > 35 then 25 else if red_pct > 25 then 15 else 5)
  let s := s + (if far_red_pct > 5 then 20 else 10)
  let s := s + (if par > 0.8 then 25 else if par > 0.6 then 15 else 5)
  min s 100

/-- Seedling-dedicated (育苗专用) crop score of the source. -/
def seedling_score (rb blue_pct uvab ppe_val : ℚ) : ℕ :=
  let s : ℕ := 0
  let s := s + (if 0.3 ≤ rb ∧ rb ≤ 1.0 then 30 else if 0.2 ≤ rb ∧ rb ≤ 1.5 then 20 else 10)
  let s := s + (if blue_pct > 25 then 30 else if blue_pct > 20 then 20 else 10)
  let s := s + (if uvab > 0.1 then 20 else 10)
  let s := s + (if ppe_val > 2.0 then 20 else 10)
  min s 100

/-- Spec-side leafy R/B award: +30 for [0.5,1.5], +20 for [0.3,2.0],
else +10. -/
def rbAwardLeafy (rb : ℚ) : ℕ :=
  if 0.5 ≤ rb ∧ rb ≤ 1.5 then 30 else if 0.3 ≤ rb ∧ rb ≤ 2.0 then 20 else 10

/-- Spec-side leafy blue%-award: +25 if > 20, +15 if > 15, else +5. -/
def blueAwardLeafy (b : ℚ) : ℕ := if b > 20 then 25 else if b > 15 then 15 else 5

/-- Spec-side leafy green%-award: +20 if < 15, else +10. -/
def greenAwardLeafy (g : ℚ) : ℕ := if g < 15 then 20 else 10

/-- Spec-side leafy PAR-ratio award: +25 if > 0.8, +15 if > 0.6, else +5. -/
def parAwardLeafy (p : ℚ) : ℕ := if p > 0.8 then 25 else if p > 0.6 then 15 else 5

/-! ### Scoring Engine: growth-stage suitability -/

/-- Germination (发芽期) stage score: base 50, bonuses, clamp at 100. -/
def germination_score (blue_pct red_pct ppe_val : ℚ) : ℕ :=
  let s : ℕ := 50
  let s := if 15 ≤ blue_pct ∧ blue_pct ≤ 30 then s + 20 else s
  let s := if 25 ≤ red_pct ∧ red_pct ≤ 45 then s + 20 else s
  let s := if ppe_val > 1.8 then s + 10 else s
  min s 100

/-- Seedling (苗期) stage score: base 50, bonuses, clamp at 100. -/
def seedling_stage_score (blue_pct rb uva_pct : ℚ) : ℕ :=
  let s : ℕ := 50
  let s := if blue_pct > 25 then s + 25 else s
  let s := if 0.5 ≤ rb ∧ rb ≤ 1.2 then s + 20 else s
  let s := if uva_pct > 2 then s + 5 else s
  min s 100

/-- Vegetative-growth (营养生长期) stage score: base 50, bonuses, clamp at
100. -/
def vegetative_score (rb par green_pct far_red_pct : ℚ) : ℕ :=
  let s : ℕ := 50
  let s := if 1.0 ≤ rb ∧ rb ≤ 2.0 then s + 20 else s
  let s := if par > 0.7 then s + 15 else s
  let s := if 10 ≤ green_pct ∧ green_pct ≤ 15 then s + 10 else s
  let s := if far_red_pct > 3 then s + 5 else s
  min s 100

/-- Flowering (开花期) stage score: base 50, bonuses, clamp at 100. -/
def flowering_score (red_pct rb far_red_pct rfr : ℚ) : ℕ :=
  let s : ℕ := 50
  let s := if red_pct > 35 then s + 20 else s
  let s := if rb > 2.0 then s + 15 else s
  let s := if 5 ≤ far_red_pct ∧ far_red_pct ≤ 12 then s + 10 else s
  let s := if rfr > 2.0 then s + 5 else s
  min s 100

/-- Fruiting (结果期) stage score: base 50, bonuses, clamp at 100. -/
def fruiting_score (ppe_val par rb spectral_comp : ℚ) : ℕ :=
  let s : ℕ := 50
  let s := if ppe_val > 2.2 then s + 15 else s
  let s := if par > 0.8 then s + 15 else s
  let s := if 1.5 ≤ rb ∧ rb ≤ 3.0 then s + 15 else s
  let s := if spectral_comp > 0.6 then s + 5 else s
  min s 100

/-! ### Diagnostics Generator (`optimization_suggestions`) -/

/-- Suggestion emitted when PPE < 2.0. -/
def ppeMsg : String := "建议提高PPE：增加光合有效光子输出比例"

/-- Suggestion emitted when the PAR ratio < 0.6. -/
def parMsg : String := "建议优化光谱分布：提高PAR波段(400-700nm)比例"

/-- Suggestion emitted when the R/B ratio < 0.3. -/
def rbLowMsg : String := "建议增加红光比例：当前红蓝比过低，可能影响植物伸长和开花"

/-- Suggestion emitted when the R/B ratio > 4.0. -/
def rbHighMsg : String := "建议增加蓝光比例：当前红蓝比过高，可能导致徒长"

/-- Suggestion emitted when blue% < 10. -/
def blueLowMsg : String := "建议增加蓝光(400-500nm)：促进叶绿素合成和植物紧凑生长"

/-- Suggestion emitted when blue% > 40. -/
def blueHighMsg : String := "建议适当减少蓝光：过多蓝光可能抑制植物伸长"

/-- Suggestion emitted when green% > 20. -/
def greenMsg : String := "建议减少绿光(500-600nm)：绿光利用效率较低"

/-- Suggestion emitted when far-red% < 2. -/
def farRedLowMsg : String := "建议添加少量远红光(700-800nm)：促进茎伸长和叶片展开"

/-- Suggestion emitted when far-red% > 15. -/
def farRedHighMsg : String := "建议减少远红光：过多远红光可能导致徒长"

/-- Suggestion emitted when UV-A% < 1. -/
def uvaMsg : String := "建议添加UV-A(315-400nm)：提高植物抗逆性和次生代谢物含量"

/-- Suggestion emitted when the heat-loss rate > 0.4. -/
def heatMsg : String := "建议改善散热设计：当前热损失率较高，影响能效"

/-- Fallback message when no threshold rule fires. -/
def reasonableMsg : String := "当前光谱配置较为合理，各项指标均在适宜范围内"

/-- The diagnostics generator of the source: the fixed ordered sequence of
independent threshold checks, each appending one suggestion when violated,
with the "configuration is reasonable" fallback when none fires. -/
def optimization_suggestions (ppe_val par_ratio_val rb blue_pct green_pct
    far_red_pct uva_pct heat_loss_rate : ℚ) : List String :=
  let l : List String := []
  let l := if ppe_val < 2.0 then l ++ [ppeMsg] else l
  let l := if par_ratio_val < 0.6 then l ++ [parMsg] else l
  let l := if rb < 0.3 then l ++ [rbLowMsg] else if rb > 4.0 then l ++ [rbHighMsg] else l
  let l := if blue_pct < 10 then l ++ [blueLowMsg]
    else if blue_pct > 40 then l ++ [blueHighMsg] else l
  let l := if green_pct > 20 then l ++ [greenMsg] else l
  let l := if far_red_pct < 2 then l ++ [farRedLowMsg]
    else if far_red_pct > 15 then l ++ [farRedHighMsg] else l
  let l := if uva_pct < 1 then l ++ [uvaMsg] else l
  let l := if heat_loss_rate > 0.4 then l ++ [heatMsg] else l
  if l = [] then [reasonableMsg] else l

/-- Spec-side rule table: the suggestions fired by the independent threshold
checks, in the fixed order, one suggestion per violated rule. -/
def firedSuggestions (ppe_val par_ratio_val rb blue_pct green_pct
    far_red_pct uva_pct heat_loss_rate : ℚ) : List String :=
  (if ppe_val < 2.0 then [ppeMsg] else []) ++
  (if par_ratio_val < 0.6 then [parMsg] else []) ++
  (if rb < 0.3 then [rbLowMsg] else []) ++
  (if rb > 4.0 then [rbHighMsg] else []) ++
  (if blue_pct < 10 then [blueLowMsg] else []) ++
  (if blue_pct > 40 then [blueHighMsg] else []) ++
  (if green_pct > 20 then [greenMsg] else []) ++
  (if far_red_pct < 2 then [farRedLowMsg] else []) ++
  (if far_red_pct > 15 then [farRedHighMsg] else []) ++
  (if uva_pct < 1 then [uvaMsg] else []) ++
  (if heat_loss_rate > 0.4 then [heatMsg] else [])

/-! ### Theorems -/

/-- Claim C1: for every cleaned spectrum and lamp parameters, `ppe` equals
`total_photon_flux / total_power` exactly when `total_power > 0` and equals
0 when `total_power = 0`; likewise `light_energy_efficiency`
(`par_power / total_power`) equals 0 when `total_power = 0`; both are total
functions, so no exception can be raised in either case. -/
theorem claim_C1 (samples : List Sample) (total_radiation_flux total_power : ℚ) :
    (0 < total_power →
      ppe total_radiation_flux total_power samples =
        total_photon_flux total_radiation_flux samples / total_power) ∧
    (total_power = 0 → ppe total_radiation_flux total_power samples = 0) ∧
    (total_power = 0 →
      light_energy_efficiency total_radiation_flux total_power samples = 0) := by
  refine ⟨fun h => ?_, fun h => ?_, fun h => ?_⟩ <;>
    simp [ppe, light_energy_efficiency, h]

/-- Witness for C1 at the one-sample spectrum (450 nm, radiation 2), flux 10,
with power 4 and power 0. -/
theorem claim_C1_witness :
    ppe 10 4 [⟨450, 2⟩] = total_photon_flux 10 [⟨450, 2⟩] / 4 ∧
    ppe 10 0 [⟨450, 2⟩] = 0 ∧
    light_energy_efficiency 10 0 [⟨450, 2⟩] = 0 :=
  ⟨(claim_C1 [⟨450, 2⟩] 10 4).1 (by norm_num),
   (claim_C1 [⟨450, 2⟩] 10 0).2.1 rfl,
   (claim_C1 [⟨450, 2⟩] 10 0).2.2 rfl⟩

/-- Claim C2 (refuted by the code): the three tagged failures are not the
only conditions that abort the analysis.  The 2-column table with one valid
row (400 nm, radiation 1) and one row whose radiation coerces to +Inf
passes all three tagged checks — enough columns, both rows survive
cleaning, one valid sample survives the `valid_mask` filter — yet the band
masks, built from the unfiltered cleaned table but indexing the shorter
filtered arrays, raise an uncaught `IndexError`: the pipeline aborts with
`indexError`, which is neither a tagged failure nor a result. -/
theorem claim_C2 :
    calculate_light_analysis_pipeline
        ⟨2, [(some (.fin 400), some (.fin 1)), (some (.fin 500), some .pinf)]⟩ =
      .error .indexError ∧
    (∀ e : AnalysisError,
      calculate_light_analysis_pipeline
          ⟨2, [(some (.fin 400), some (.fin 1)), (some (.fin 500), some .pinf)]⟩ ≠
        .error (.tagged e)) ∧
    (∀ s : List Sample,
      calculate_light_analysis_pipeline
          ⟨2, [(some (.fin 400), some (.fin 1)), (some (.fin 500), some .pinf)]⟩ ≠
        .ok s) := by
  have h : calculate_light_analysis_pipeline
      ⟨2, [(some (.fin 400), some (.fin 1)), (some (.fin 500), some .pinf)]⟩ =
      .error .indexError := rfl
  exact ⟨h, fun e => by rw [h]; simp, fun s => by rw [h]; simp⟩

/-- Claim C3: the band masks are the half-open intervals
`lowNm ≤ wavelength < highNm`, and a sample at exactly 500 nm contributes
its integration value to the Green band sum [500, 600) and nothing to the
Blue band sum [400, 500). -/
theorem claim_C3 (samples : List Sample) (lo hi : ℚ) (s : Sample) (r : ℚ) :
    (inBand lo hi s = true ↔ lo ≤ s.wavelength ∧ s.wavelength < hi) ∧
    green_integration (⟨500, r⟩ :: samples) =
      integrationValue ⟨500, r⟩ + green_integration samples ∧
    blue_integration (⟨500, r⟩ :: samples) = blue_integration samples := by
  refine ⟨by simp [inBand], ?_, ?_⟩
  · have hmem : inBand 500 600 ⟨500, r⟩ = true := by
      norm_num [inBand]
    simp [green_integration, calculate_wavelength_range_integration,
      List.filter_cons, hmem]
  · have hmem : inBand 400 500 ⟨500, r⟩ = false := by
      norm_num [inBand]
    simp [blue_integration, calculate_wavelength_range_integration,
      List.filter_cons, hmem]

/-- A band sum over `[lo, hi)` with `0 ≤ lo` is non-negative whenever every
sample's radiation is non-negative (the wavelengths in the band are then
non-negative too). -/
theorem range_integration_nonneg (samples : List Sample) (lo hi : ℚ) (hlo : 0 ≤ lo)
    (h : ∀ s ∈ samples, 0 ≤ s.radiation) :
    0 ≤ calculate_wavelength_range_integration samples lo hi := by
  unfold calculate_wavelength_range_integration
  apply List.sum_nonneg
  intro x hx
  simp only [List.mem_map] at hx
  obtain ⟨s, hs, rfl⟩ := hx
  rw [List.mem_filter] at hs
  obtain ⟨hmem, hband⟩ := hs
  have hw : lo ≤ s.wavelength := by
    simp only [inBand, Bool.and_eq_true, decide_eq_true_eq] at hband
    exact hband.1
  have hr : 0 ≤ s.radiation := h s hmem
  unfold integrationValue photonConst
  apply div_nonneg (mul_nonneg (le_trans hlo hw) hr)
  norm_num

/-- Counterexample to claim C4 as stated: a cleaned, filtered spectrum may
contain negative radiation values (cleaning only drops non-numeric rows), and
for the one-sample spectrum (350 nm, radiation −1) the UV-A band sum is
negative, so `extended_light_quality < light_quality_total`. -/
theorem claim_C4_counterexample :
    ¬ (light_quality_total [⟨350, -1⟩] ≤ extended_light_quality [⟨350, -1⟩]) := by
  norm_num [light_quality_total, extended_light_quality, blue_integration,
    green_integration, red_integration, far_red_integration, uva_integration,
    violet_integration, nir_integration, calculate_wavelength_range_integration,
    inBand, integrationValue, photonConst, List.filter]

/-- Claim C4, amended: for every cleaned, filtered spectrum in which every
sample's radiation is non-negative (as for any physical emission spectrum),
`extended_light_quality` (UV-A + Violet + Blue + Green + Red + FarRed + NIR)
is at least `light_quality_total` (Blue + Green + Red + FarRed). -/
theorem claim_C4_amended (samples : List Sample)
    (h : ∀ s ∈ samples, 0 ≤ s.radiation) :
    light_quality_total samples ≤ extended_light_quality samples := by
  have h1 : 0 ≤ uva_integration samples :=
    range_integration_nonneg samples 315 400 (by norm_num) h
  have h2 : 0 ≤ violet_integration samples :=
    range_integration_nonneg samples 380 420 (by norm_num) h
  have h3 : 0 ≤ nir_integration samples :=
    range_integration_nonneg samples 700 850 (by norm_num) h
  unfold light_quality_total extended_light_quality
  linarith

/-- Witness for the amended C4 at the one-sample spectrum (350 nm,
radiation 1). -/
theorem claim_C4_witness :
    light_quality_total [⟨350, 1⟩] ≤ extended_light_quality [⟨350, 1⟩] :=
  claim_C4_amended [⟨350, 1⟩] (by
    intro s hs
    rw [List.mem_singleton] at hs
    subst hs
    norm_num)

/-- Claim C5: whenever `extended_light_quality > 0`, the four core band
percentages satisfy blue% + green% + red% + farRed% =
`light_quality_total / extended_light_quality * 100` exactly; and they need
not sum to 100 (witnessed by the two-sample spectrum with a UV-A sample at
350 nm alongside a blue sample at 450 nm, whose core percentages sum to
56.25). -/
theorem claim_C5 (samples : List Sample) (h : 0 < extended_light_quality samples) :
    (blue_percentage samples + green_percentage samples + red_percentage samples +
      far_red_percentage samples =
      light_quality_total samples / extended_light_quality samples * 100) ∧
    (0 < extended_light_quality [⟨350, 1⟩, ⟨450, 1⟩] ∧
      blue_percentage [⟨350, 1⟩, ⟨450, 1⟩] + green_percentage [⟨350, 1⟩, ⟨450, 1⟩] +
        red_percentage [⟨350, 1⟩, ⟨450, 1⟩] + far_red_percentage [⟨350, 1⟩, ⟨450, 1⟩] ≠
        100) := by
  constructor
  · simp only [blue_percentage, green_percentage, red_percentage, far_red_percentage,
      light_quality_total, if_pos h]
    ring
  · constructor <;>
      norm_num [blue_percentage, green_percentage, red_percentage, far_red_percentage,
        light_quality_total, extended_light_quality, blue_integration, green_integration,
        red_integration, far_red_integration, uva_integration, violet_integration,
        nir_integration, calculate_wavelength_range_integration, inBand, integrationValue,
        photonConst, List.filter]

/-- Witness for C5 at the one-sample spectrum (450 nm, radiation 1), whose
extended total is positive. -/
theorem claim_C5_witness :
    blue_percentage [⟨450, 1⟩] + green_percentage [⟨450, 1⟩] + red_percentage [⟨450, 1⟩] +
      far_red_percentage [⟨450, 1⟩] =
      light_quality_total [⟨450, 1⟩] / extended_light_quality [⟨450, 1⟩] * 100 :=
  (claim_C5 [⟨450, 1⟩] (by
    norm_num [extended_light_quality, blue_integration, green_integration,
      red_integration, far_red_integration, uva_integration, violet_integration,
      nir_integration, calculate_wavelength_range_integration, inBand,
      integrationValue, photonConst, List.filter])).1

/-- Claim C6: the overall quality rating is the sum of the three independent
sub-scores (PPE: 3 if > 2.5, 2 if > 2.0, else 1; parRatio: 3 if > 0.8, 2 if
> 0.6, else 1; rbRatio: 3 if in [0.5, 3.0], 2 if in [0.3, 4.0], else 1)
mapped through the tier thresholds (Excellent `"优秀"` if ≥ 8, Good `"良好"`
if ≥ 6, else Fair `"一般"`); in particular PPE = 2.6, parRatio = 0.85,
rbRatio = 1.0 scores 3 + 3 + 3 = 9 and rates Excellent. -/
theorem claim_C6 (p pr rb : ℚ) :
    (evaluate_light_quality p pr rb).1 =
      ratingOfSum (ppeSubScore p + parSubScore pr + rbSubScore rb) ∧
    evaluate_light_quality 2.6 0.85 1 = ("优秀", "🏆") := by
  constructor
  · simp only [evaluate_light_quality, ratingOfSum, ppeSubScore, parSubScore, rbSubScore]
    split_ifs <;> rfl
  · norm_num [evaluate_light_quality]

/-- Claim C7: the leafy-vegetables crop score is exactly the sum of the four
independent awards of the rule table, starting from base 0, clamped at
100. -/
theorem claim_C7 (rb blue_pct green_pct par : ℚ) :
    leafy_score rb blue_pct green_pct par =
      min (0 + rbAwardLeafy rb + blueAwardLeafy blue_pct + greenAwardLeafy green_pct +
        parAwardLeafy par) 100 := by
  unfold leafy_score rbAwardLeafy blueAwardLeafy greenAwardLeafy parAwardLeafy
  rfl

/-- Claim C9: each of the five growth-stage suitability scores lies in
[50, 100]: each starts at base 50, its rules only add points, and the result
is clamped at 100. -/
theorem claim_C9 (blue_pct red_pct green_pct far_red_pct rb par rfr uva_pct
    ppe_val spectral_comp : ℚ) :
    (50 ≤ germination_score blue_pct red_pct ppe_val ∧
      germination_score blue_pct red_pct ppe_val ≤ 100) ∧
    (50 ≤ seedling_stage_score blue_pct rb uva_pct ∧
      seedling_stage_score blue_pct rb uva_pct ≤ 100) ∧
    (50 ≤ vegetative_score rb par green_pct far_red_pct ∧
      vegetative_score rb par green_pct far_red_pct ≤ 100) ∧
    (50 ≤ flowering_score red_pct rb far_red_pct rfr ∧
      flowering_score red_pct rb far_red_pct rfr ≤ 100) ∧
    (50 ≤ fruiting_score ppe_val par rb spectral_comp ∧
      fruiting_score ppe_val par rb spectral_comp ≤ 100) := by
  simp only [germination_score, seedling_stage_score, vegetative_score, flowering_score,
    fruiting_score]
  refine ⟨⟨?_, ?_⟩, ⟨?_, ?_⟩, ⟨?_, ?_⟩, ⟨?_, ?_⟩, ⟨?_, ?_⟩⟩ <;>
    (repeat' split) <;> omega

/-- Claim C10: each crop suitability score is at most 100 and at least 30
(the seedling category at least 40): the base is 0 but every rule also
awards points in its else-branch. -/
theorem claim_C10 (rb blue_pct green_pct red_pct far_red_pct par uvab ppe_val : ℚ) :
    (30 ≤ leafy_score rb blue_pct green_pct par ∧
      leafy_score rb blue_pct green_pct par ≤ 100) ∧
    (30 ≤ fruit_score rb red_pct far_red_pct par ∧
      fruit_score rb red_pct far_red_pct par ≤ 100) ∧
    (40 ≤ seedling_score rb blue_pct uvab ppe_val ∧
      seedling_score rb blue_pct uvab ppe_val ≤ 100) := by
  simp only [leafy_score, fruit_score, seedling_score]
  refine ⟨⟨?_, ?_⟩, ⟨?_, ?_⟩, ⟨?_, ?_⟩⟩ <;>
    (repeat' split) <;> omega

/-- A guarded append step of the diagnostics accumulator distributes over
the accumulated prefix. -/
theorem if_append_eq {α : Type} (c : Prop) [Decidable c] (l a : List α) :
    (if c then l ++ a else l) = l ++ (if c then a else []) := by
  split <;> simp

/-- A guarded if/elif append step with mutually exclusive conditions splits
into two independent guarded appends. -/
theorem elif_append_eq {α : Type} {c d : Prop} [Decidable c] [Decidable d]
    (hcd : ¬ (c ∧ d)) (l a b : List α) :
    (if c then l ++ a else if d then l ++ b else l) =
      l ++ ((if c then a else []) ++ (if d then b else [])) := by
  by_cases hc : c
  · have hd : ¬ d := fun hd => hcd ⟨hc, hd⟩
    simp [hc, hd]
  · by_cases hd : d <;> simp [hc, hd]

/-- Claim C8: the optimization-suggestion list equals the ordered list of
suggestions fired by the independent threshold rules, with no suppression
between rules, falling back to the single "configuration is reasonable"
message when no rule fires; consequently the returned list is never
empty. -/
theorem claim_C8 (ppe_val par_ratio_val rb blue_pct green_pct far_red_pct
    uva_pct heat_loss_rate : ℚ) :
    (optimization_suggestions ppe_val par_ratio_val rb blue_pct green_pct
        far_red_pct uva_pct heat_loss_rate =
      if firedSuggestions ppe_val par_ratio_val rb blue_pct green_pct
          far_red_pct uva_pct heat_loss_rate = [] then [reasonableMsg]
      else firedSuggestions ppe_val par_ratio_val rb blue_pct green_pct
          far_red_pct uva_pct heat_loss_rate) ∧
    optimization_suggestions ppe_val par_ratio_val rb blue_pct green_pct
        far_red_pct uva_pct heat_loss_rate ≠ [] ∧
    (firedSuggestions ppe_val par_ratio_val rb blue_pct green_pct
        far_red_pct uva_pct heat_loss_rate = [] →
      optimization_suggestions ppe_val par_ratio_val rb blue_pct green_pct
        far_red_pct uva_pct heat_loss_rate = [reasonableMsg]) := by
  have h34 : ¬ (rb < 0.3 ∧ rb > 4.0) := by
    rintro ⟨hlo, hhi⟩
    linarith
  have h56 : ¬ (blue_pct < 10 ∧ blue_pct > 40) := by
    rintro ⟨hlo, hhi⟩
    linarith
  have h89 : ¬ (far_red_pct < 2 ∧ far_red_pct > 15) := by
    rintro ⟨hlo, hhi⟩
    linarith
  have key : optimization_suggestions ppe_val par_ratio_val rb blue_pct green_pct
      far_red_pct uva_pct heat_loss_rate =
      if firedSuggestions ppe_val par_ratio_val rb blue_pct green_pct
          far_red_pct uva_pct heat_loss_rate = [] then [reasonableMsg]
      else firedSuggestions ppe_val par_ratio_val rb blue_pct green_pct
          far_red_pct uva_pct heat_loss_rate := by
    simp only [optimization_suggestions, firedSuggestions]
    rw [if_append_eq, if_append_eq, elif_append_eq h89, if_append_eq,
      elif_append_eq h56, elif_append_eq h34, if_append_eq, if_append_eq]
    simp [List.append_assoc]
  refine ⟨key, ?_, fun hf => by rw [key, if_pos hf]⟩
  rw [key]
  split
  · simp
  · assumption

/-- Witness for C8: at a metric set violating no rule (PPE 3, parRatio 0.9,
rbRatio 1, blue% 20, green% 10, farRed% 5, uvA% 2, heatLossRate 0.2) the
suggestion list is exactly the single "configuration is reasonable"
message. -/
theorem claim_C8_witness :
    optimization_suggestions 3 0.9 1 20 10 5 2 0.2 = [reasonableMsg] :=
  (claim_C8 3 0.9 1 20 10 5 2 0.2).2.2 (by norm_num [firedSuggestions])

end LED
